import Mathlib

/-!
Shallow embedding of the event-registration subsystem of the BITSA backend
(Express + Prisma controllers), together with theorems settling the claims
about event lifecycle status, simple registration, registration forms,
submissions, approval and attendance.

Conventions used throughout the embedding:
* Timestamps (`Date` values, `Date.now()`) are integers (epoch milliseconds).
* A JavaScript request-body field that may be absent is an `Option`; for
  guards written `if (x)` in the source, `none` models an absent or falsy
  value and `some v` a present truthy value.  Guards written
  `x !== undefined` distinguish absence from falsiness, so those fields are
  `Option (Option _)`: the outer `none` is `undefined`, `some none` a
  present falsy value (stored as `null`).
* Database tables are Lean lists; `findUnique` is `List.find?`, `count` is
  `List.countP`, `deleteMany` is `List.filter`, `updateMany`/`update` is
  `List.map`.  Database-generated ids are modelled by explicit fresh-id
  counters threaded through the state.
* An HTTP response is its status code, `success` flag and `message` string.
-/

namespace BITSA

/-- A JSON value as it appears in a request body (`responses` map of a form
submission).  Floating point numbers are collapsed to integers; `NaN` is not
modelled. -/
inductive JSVal where
  | vStr (s : String)
  | vInt (n : Int)
  | vBool (b : Bool)
  | vNull
deriving DecidableEq, Repr

/-- JavaScript truthiness of a `JSVal`: `""`, `0`, `false` and `null` are
falsy, everything else truthy. -/
def JSVal.truthy : JSVal → Bool
  | .vStr s => !(s = "")
  | .vInt n => !(n = 0)
  | .vBool b => b
  | .vNull => false

/-- Event lifecycle status (Prisma `EventStatus` enum). -/
inductive EventStatus where
  | UPCOMING
  | ONGOING
  | COMPLETED
  | CANCELLED
deriving DecidableEq, Repr

/-- Submission workflow status (Prisma `SubmissionStatus` enum). -/
inductive SubmissionStatus where
  | PENDING
  | APPROVED
  | REJECTED
  | WAITLISTED
deriving DecidableEq, Repr

/-- The observable part of an HTTP JSON response: status code, `success`
flag and `message`. -/
structure ApiResp where
  status : Nat
  success : Bool
  message : String
deriving DecidableEq, Repr

/-- Success response helper (`res.status(code).json({success:true, message})`). -/
def okResp (code : Nat) (msg : String) : ApiResp := ⟨code, true, msg⟩

/-- Error response helper (`res.status(code).json({success:false, message})`). -/
def errResp (code : Nat) (msg : String) : ApiResp := ⟨code, false, msg⟩

/-- An `Event` row (the columns touched by the modelled controllers). -/
structure Event where
  id : Nat
  title : String
  slug : String
  description : String
  coverImage : Option String
  location : String
  eventType : String
  startDate : Int
  endDate : Int
  registrationDeadline : Option Int
  maxAttendees : Option Int
  categoryId : Option Nat
  createdById : Nat
  status : EventStatus
  requiresRegistration : Bool
deriving DecidableEq, Repr

/-- Characters kept by the slug regex `[^a-z0-9]+`. -/
def isSlugChar (c : Char) : Bool :=
  (('a' ≤ c) && (c ≤ 'z')) || (('0' ≤ c) && (c ≤ '9'))

/-- Collapse consecutive dashes into one, mirroring the `+` in the
replacement regex `[^a-z0-9]+ → "-"` (applied after mapping every non-slug
character to a dash). -/
def squashDashes (l : List Char) : List Char :=
  l.foldr (fun c acc => if c == '-' && acc.head? == some '-' then acc else c :: acc) []

/-- Remove one leading and one trailing dash, mirroring
`.replace(/(^-|-$)/g, "")`. -/
def dropEdgeDash (l : List Char) : List Char :=
  let l1 := match l with
    | '-' :: rest => rest
    | other => other
  match l1.reverse with
  | '-' :: rest => rest.reverse
  | _ => l1

/-- Slug generation from `createEvent`/`updateEvent`:
`title.toLowerCase().replace(/[^a-z0-9]+/g,"-").replace(/(^-|-$)/g,"") + "-" + Date.now()`. -/
def slugify (title : String) (now : Int) : String :=
  let lowered := title.toList.map Char.toLower
  let dashed := lowered.map (fun c => if isSlugChar c then c else '-')
  String.mk (dropEdgeDash (squashDashes dashed)) ++ "-" ++ toString now

/-- Request body of `POST /events` (`EventController.createEvent`).
Fields guarded by plain truthiness checks or `x || null` / `x ? f(x) : null`
expressions in the source, so `none` models absent-or-falsy throughout. -/
structure CreateEventBody where
  title : Option String
  description : Option String
  coverImage : Option String
  location : Option String
  eventType : Option String
  startDate : Option Int
  endDate : Option Int
  registrationDeadline : Option Int
  maxAttendees : Option Int
  categoryId : Option Nat
deriving DecidableEq, Repr

/-- `EventController.createEvent` (event.controller.ts lines 5–106), reduced
to the created row.  The Prisma `create` passes no `status` (and no
`requiresRegistration`), so the stored row takes the schema defaults; the
Prisma schema file is not among the sources, hence the default status is the
explicit parameter `dbDefaultStatus` (the spec's data model implies the
`requiresRegistration` default is `false`).  `newId` models the
database-assigned id and `now` is `Date.now()`. -/
def EventController.createEvent (userId? : Option Nat) (b : CreateEventBody)
    (newId : Nat) (dbDefaultStatus : EventStatus) (now : Int) :
    ApiResp × Option Event :=
  match userId? with
  | none => (errResp 401 "Unauthorized", none)
  | some userId =>
    match b.title, b.description, b.location, b.eventType, b.startDate, b.endDate with
    | some title, some description, some location, some eventType, some startDate, some endDate =>
      let e : Event := {
        id := newId
        title := title
        slug := slugify title now
        description := description
        coverImage := b.coverImage
        location := location
        eventType := eventType
        startDate := startDate
        endDate := endDate
        registrationDeadline := b.registrationDeadline
        maxAttendees := b.maxAttendees
        categoryId := b.categoryId
        createdById := userId
        status := dbDefaultStatus
        requiresRegistration := false }
      (okResp 201 "Event created successfully", some e)
    | _, _, _, _, _, _ =>
      (errResp 400 "Title, description, location, event type, start date, and end date are required", none)

/-- Request body of `PUT /events/:id` (`EventController.updateEvent`).
`title`, `description`, `location`, `eventType`, `startDate`, `endDate` and
`status` are guarded by `if (x)` in the source (`none` = absent or falsy);
`coverImage`, `registrationDeadline`, `maxAttendees` and `categoryId` are
guarded by `x !== undefined` and then coalesced with `|| null` /
`x ? f(x) : null`, hence the two-level `Option`. -/
structure UpdateEventBody where
  title : Option String
  description : Option String
  coverImage : Option (Option String)
  location : Option String
  eventType : Option String
  startDate : Option Int
  endDate : Option Int
  registrationDeadline : Option (Option Int)
  maxAttendees : Option (Option Int)
  categoryId : Option (Option Nat)
  status : Option EventStatus
deriving DecidableEq, Repr

/-- The all-absent update body. -/
def emptyUpdate : UpdateEventBody :=
  ⟨none, none, none, none, none, none, none, none, none, none, none⟩

/-- `EventController.updateEvent` (event.controller.ts lines 277–379),
reduced to the merge of the patch into the found row: each `if (x)
updateData.x = ...` line becomes a conditional field update.  The slug is
regenerated only when a truthy `title` differing from the stored title is
supplied.  Note that `status` is taken verbatim from the request body when
present and is otherwise untouched; no value is derived from the dates. -/
def EventController.updateEvent (e : Event) (b : UpdateEventBody) (now : Int) : Event :=
  let newSlug :=
    match b.title with
    | some t => if t ≠ e.title then slugify t now else e.slug
    | none => e.slug
  { e with
    title := b.title.getD e.title
    slug := newSlug
    description := b.description.getD e.description
    coverImage := match b.coverImage with
      | some c => c
      | none => e.coverImage
    location := b.location.getD e.location
    eventType := b.eventType.getD e.eventType
    startDate := b.startDate.getD e.startDate
    endDate := b.endDate.getD e.endDate
    registrationDeadline := match b.registrationDeadline with
      | some d => d
      | none => e.registrationDeadline
    maxAttendees := match b.maxAttendees with
      | some m => m
      | none => e.maxAttendees
    categoryId := match b.categoryId with
      | some c => c
      | none => e.categoryId
    status := b.status.getD e.status }

/-- Status derivation described by the spec (interval comparison with now):
`ONGOING` if now is in `[startDate, endDate]`, `UPCOMING` if now is before
`startDate`, `COMPLETED` if now is after `endDate`.  This definition follows
the spec's words; it is the property the event controller is claimed to
implement, to be compared with the controller's actual behaviour. -/
def specDerivedStatus (now startD endD : Int) : EventStatus :=
  if startD ≤ now ∧ now ≤ endD then .ONGOING
  else if now < startD then .UPCOMING
  else .COMPLETED

/-- A sample stored event used for concrete evaluations: non-cancelled,
with both dates in the past relative to time 100. -/
def pastEvent : Event := {
  id := 1
  title := "Tech Meetup"
  slug := "tech-meetup-0"
  description := "d"
  coverImage := none
  location := "Main Hall"
  eventType := "WORKSHOP"
  startDate := 0
  endDate := 10
  registrationDeadline := none
  maxAttendees := none
  categoryId := none
  createdById := 5
  status := .UPCOMING
  requiresRegistration := false }

/-- A sample cancelled event. -/
def cancelledEvent : Event := { pastEvent with id := 2, status := .CANCELLED }

/-- C1 counterexample: an `updateEvent` call on a non-CANCELLED event
(status `UPCOMING`, both dates in the past at time 100, empty patch) leaves
the status `UPCOMING`, whereas the status derived from comparing now with
the merged dates is `COMPLETED` — the controller never recomputes status
from dates. -/
theorem updateEvent_status_neq_derived_cex :
    pastEvent.status ≠ EventStatus.CANCELLED ∧
    (EventController.updateEvent pastEvent emptyUpdate 100).status ≠
      specDerivedStatus 100 (EventController.updateEvent pastEvent emptyUpdate 100).startDate
        (EventController.updateEvent pastEvent emptyUpdate 100).endDate := by
  constructor
  · decide
  · decide

/-- C1 amended: `createEvent` does not set `status` at all (the created row
carries the database schema default), and `updateEvent` takes `status` only
from an explicit truthy `status` field of the patch, leaving it unchanged
otherwise; neither operation derives the status from the start/end dates. -/
theorem createEvent_updateEvent_status_not_derived :
    (∀ (userId : Nat) (b : CreateEventBody) (newId : Nat) (d : EventStatus) (now : Int) (ev : Event),
      (EventController.createEvent (some userId) b newId d now).2 = some ev → ev.status = d) ∧
    (∀ (e : Event) (b : UpdateEventBody) (now : Int), b.status = none →
      (EventController.updateEvent e b now).status = e.status) := by
  constructor
  · intro userId b newId d now ev h
    unfold EventController.createEvent at h
    rcases b with ⟨t, de, ci, lo, et, sd, ed, rd, ma, cat⟩
    cases t <;> cases de <;> cases lo <;> cases et <;> cases sd <;> cases ed <;>
      simp_all [EventController.createEvent]
    subst h
    rfl
  · intro e b now h
    simp [EventController.updateEvent, h]

/-- C1 witness: the amended theorem applied at the sample event and the
empty patch. -/
theorem createEvent_updateEvent_status_not_derived_witness :
    (EventController.updateEvent pastEvent emptyUpdate 100).status = pastEvent.status :=
  createEvent_updateEvent_status_not_derived.2 pastEvent emptyUpdate 100 rfl

/-- An `EventRegistration` row (simple registration path). -/
structure EventRegistration where
  id : Nat
  eventId : Nat
  userId : Nat
deriving DecidableEq, Repr

/-- Database state touched by the simple registration path: the `events`
and `event_registrations` tables plus a fresh-id counter standing for the
database-generated registration ids. -/
structure RegState where
  events : List Event
  registrations : List EventRegistration
  nextRegId : Nat
deriving DecidableEq, Repr

/-- `_count: { select: { registrations: true } }` — the number of
registration rows for the event. -/
def regCount (st : RegState) (eventId : Nat) : Nat :=
  st.registrations.countP (fun r => r.eventId == eventId)

/-- The guard `event.registrationDeadline && new Date() > new Date(event.registrationDeadline)`
(a stored deadline is a `Date`, hence truthy whenever non-null). -/
def deadlinePassed (e : Event) (now : Int) : Bool :=
  match e.registrationDeadline with
  | some d => decide (d < now)
  | none => false

/-- The admin-path capacity guard
`event.maxAttendees && event._count.registrations >= event.maxAttendees`
(`maxAttendees` is truthy iff non-null and non-zero). -/
def adminIsFull (e : Event) (count : Nat) : Bool :=
  match e.maxAttendees with
  | some m => !(m = 0) && decide (m ≤ (count : Int))
  | none => false

/-- The student-path capacity guard
`if (event.maxAttendees && event.maxAttendees > 0) { if (count >= max) ... }`. -/
def studentIsFull (e : Event) (count : Nat) : Bool :=
  match e.maxAttendees with
  | some m => (!(m = 0) && decide (0 < m)) && decide (m ≤ (count : Int))
  | none => false

/-- `EventController.registerForEvent` (event.controller.ts lines 428–530):
guards in source order — missing user (401), missing event id (400), event
not found (404), deadline passed (400), event full (400), duplicate (409) —
then the row is created. -/
def EventController.registerForEvent (st : RegState) (userId? eventId? : Option Nat)
    (now : Int) : ApiResp × RegState :=
  match userId? with
  | none => (errResp 401 "Unauthorized", st)
  | some userId =>
    match eventId? with
    | none => (errResp 400 "Event ID is required", st)
    | some eventId =>
      match st.events.find? (fun e => e.id == eventId) with
      | none => (errResp 404 "Event not found", st)
      | some event =>
        if deadlinePassed event now then
          (errResp 400 "Registration deadline has passed", st)
        else if adminIsFull event (regCount st eventId) then
          (errResp 400 "Event is full", st)
        else
          match st.registrations.find? (fun r => r.eventId == eventId && r.userId == userId) with
          | some _ => (errResp 409 "You are already registered for this event", st)
          | none =>
            (okResp 201 "Successfully registered for event",
              { st with
                registrations := st.registrations ++ [⟨st.nextRegId, eventId, userId⟩]
                nextRegId := st.nextRegId + 1 })

/-- `StudentEventController.registerForEvent` (student.event.controller.ts
lines 227–394): guards in source order — missing user (401), missing event
id (400), event not found (404), duplicate checked FIRST (409), event
cancelled (400), event completed (400), deadline passed (400), event full
(400) — then the row is created. -/
def StudentEventController.registerForEvent (st : RegState) (userId? eventId? : Option Nat)
    (now : Int) : ApiResp × RegState :=
  match userId? with
  | none => (errResp 401 "Unauthorized", st)
  | some userId =>
    match eventId? with
    | none => (errResp 400 "Event ID is required", st)
    | some eventId =>
      match st.events.find? (fun e => e.id == eventId) with
      | none => (errResp 404 "Event not found", st)
      | some event =>
        match st.registrations.find? (fun r => r.eventId == eventId && r.userId == userId) with
        | some _ => (errResp 409 "You are already registered for this event", st)
        | none =>
          if event.status = .CANCELLED then
            (errResp 400 "This event has been cancelled", st)
          else if event.status = .COMPLETED then
            (errResp 400 "Registration closed - event has ended", st)
          else if deadlinePassed event now then
            (errResp 400 "Registration deadline has passed", st)
          else if studentIsFull event (regCount st eventId) then
            (errResp 400 "Event is full - maximum capacity reached", st)
          else
            (okResp 201 "Successfully registered for event",
              { st with
                registrations := st.registrations ++ [⟨st.nextRegId, eventId, userId⟩]
                nextRegId := st.nextRegId + 1 })

/-- `StudentEventController.cancelRegistration` (student.event.controller.ts
lines 397–451): 404 when the row is absent, 403 unless the caller owns it,
otherwise the row is hard-deleted. -/
def StudentEventController.cancelRegistration (st : RegState) (userId? : Option Nat)
    (regId : Nat) : ApiResp × RegState :=
  match userId? with
  | none => (errResp 401 "Unauthorized", st)
  | some userId =>
    match st.registrations.find? (fun r => r.id == regId) with
    | none => (errResp 404 "Registration not found", st)
    | some registration =>
      if registration.userId ≠ userId then
        (errResp 403 "You can only cancel your own registrations", st)
      else
        (okResp 200 "Registration cancelled successfully",
          { st with registrations := st.registrations.filter (fun r => !(r.id == regId)) })

/-- C5: once an event's status is CANCELLED, an `updateEvent` call whose
patch contains no `startDate`, no `endDate` and no `status` field leaves the
status CANCELLED. -/
theorem updateEvent_cancelled_sticky (e : Event) (b : UpdateEventBody) (now : Int)
    (hc : e.status = .CANCELLED) (hs : b.startDate = none) (he : b.endDate = none)
    (hst : b.status = none) :
    (EventController.updateEvent e b now).status = .CANCELLED := by
  simp [EventController.updateEvent, hst, hc]

/-- C5 witness: updating the sample cancelled event with a patch touching
only the location leaves it CANCELLED. -/
theorem updateEvent_cancelled_sticky_witness :
    (EventController.updateEvent cancelledEvent
      { emptyUpdate with location := some "Lab 2" } 100).status = .CANCELLED :=
  updateEvent_cancelled_sticky cancelledEvent
    { emptyUpdate with location := some "Lab 2" } 100 rfl rfl rfl rfl

/-- An event that is full (capacity 1, one registration by user 99) and
whose registration deadline (50) has passed at time 100. -/
def fullPastDeadlineEvent : Event :=
  { pastEvent with id := 3, registrationDeadline := some 50, maxAttendees := some 1 }

/-- Registration state holding `fullPastDeadlineEvent` with one existing
registration. -/
def fullPastDeadlineState : RegState :=
  ⟨[fullPastDeadlineEvent], [⟨0, 3, 99⟩], 1⟩

/-- C2 counterexample: at time 100 the event is full (`maxAttendees = 1`,
one registration) yet a registration request by the unregistered user 42 is
rejected with the deadline message, not with an "Event is full" error, in
both controller variants — the deadline guard precedes the capacity guard. -/
theorem registerForEvent_full_rejection_cex :
    fullPastDeadlineEvent.maxAttendees = some 1 ∧
    regCount fullPastDeadlineState 3 = 1 ∧
    (EventController.registerForEvent fullPastDeadlineState (some 42) (some 3) 100).1 =
      errResp 400 "Registration deadline has passed" ∧
    (StudentEventController.registerForEvent fullPastDeadlineState (some 42) (some 3) 100).1 =
      errResp 400 "Registration deadline has passed" := by
  refine ⟨rfl, rfl, ?_, ?_⟩ <;> decide

/-- An event with capacity 1 and no deadline, for the A/B scenario. -/
def capOneEvent : Event := { pastEvent with id := 4, maxAttendees := some 1 }

/-- Initial state for the A/B scenario: the capacity-1 event, nobody
registered. -/
def abState0 : RegState := ⟨[capOneEvent], [], 100⟩

/-- C2 amended: a registration request on an existing, full event is
rejected with the "Event is full" message and an unchanged state provided
no earlier guard fires — in the admin path the deadline must not have
passed, and in the student path additionally the user must not already be
registered and the event must not be CANCELLED or COMPLETED (otherwise the
earlier guard's error is returned instead); and the end-to-end capacity-1
scenario holds: user A registers (201), user B is rejected as full (400),
A cancels, then B's retry succeeds (201). -/
theorem registerForEvent_full_rejection :
    (∀ (st : RegState) (uid eid : Nat) (now : Int) (e : Event),
      st.events.find? (fun ev => ev.id == eid) = some e →
      deadlinePassed e now = false →
      adminIsFull e (regCount st eid) = true →
      EventController.registerForEvent st (some uid) (some eid) now =
        (errResp 400 "Event is full", st)) ∧
    (∀ (st : RegState) (uid eid : Nat) (now : Int) (e : Event),
      st.events.find? (fun ev => ev.id == eid) = some e →
      st.registrations.find? (fun r => r.eventId == eid && r.userId == uid) = none →
      e.status ≠ .CANCELLED →
      e.status ≠ .COMPLETED →
      deadlinePassed e now = false →
      studentIsFull e (regCount st eid) = true →
      StudentEventController.registerForEvent st (some uid) (some eid) now =
        (errResp 400 "Event is full - maximum capacity reached", st)) ∧
    ((StudentEventController.registerForEvent abState0 (some 10) (some 4) 50).1.status = 201 ∧
      (StudentEventController.registerForEvent
        (StudentEventController.registerForEvent abState0 (some 10) (some 4) 50).2
        (some 20) (some 4) 50).1 =
        errResp 400 "Event is full - maximum capacity reached" ∧
      (StudentEventController.cancelRegistration
        (StudentEventController.registerForEvent abState0 (some 10) (some 4) 50).2
        (some 10) 100).1.status = 200 ∧
      (StudentEventController.registerForEvent
        (StudentEventController.cancelRegistration
          (StudentEventController.registerForEvent abState0 (some 10) (some 4) 50).2
          (some 10) 100).2
        (some 20) (some 4) 50).1.status = 201) := by
  refine ⟨?_, ?_, ?_⟩
  · intro st uid eid now e hfind hdl hfull
    simp [EventController.registerForEvent, hfind, hdl, hfull]
  · intro st uid eid now e hfind hdup hc hcomp hdl hfull
    simp [StudentEventController.registerForEvent, hfind, hdup, hc, hcomp, hdl, hfull]
  · refine ⟨?_, ?_, ?_, ?_⟩ <;> decide

/-- A full event (capacity 1, user 99 registered) with no deadline. -/
def fullNoDeadlineState : RegState :=
  ⟨[{ pastEvent with id := 5, maxAttendees := some 1 }], [⟨0, 5, 99⟩], 1⟩

/-- C2 witness: the amended theorem applied at the full, deadline-free
event for the unregistered user 42. -/
theorem registerForEvent_full_rejection_witness :
    EventController.registerForEvent fullNoDeadlineState (some 42) (some 5) 100 =
      (errResp 400 "Event is full", fullNoDeadlineState) :=
  registerForEvent_full_rejection.1 fullNoDeadlineState 42 5 100
    { pastEvent with id := 5, maxAttendees := some 1 } rfl rfl rfl

/-- State for the C3 counterexample: user 42 is already registered for
event 6, whose deadline (50) has passed at time 100. -/
def registeredPastDeadlineState : RegState :=
  ⟨[{ pastEvent with id := 6, registrationDeadline := some 50 }], [⟨0, 6, 42⟩], 1⟩

/-- C3 counterexample: in the admin-path variant a second registration
attempt by the already-registered user 42 after the deadline has passed
returns 400 with the deadline message, not 409 — the deadline and capacity
guards run before the duplicate check. -/
theorem duplicate_registration_conflict_cex :
    (EventController.registerForEvent registeredPastDeadlineState (some 42) (some 6) 100).1 =
      errResp 400 "Registration deadline has passed" ∧
    (EventController.registerForEvent registeredPastDeadlineState (some 42) (some 6) 100).1.status ≠ 409 := by
  constructor <;> decide

/-- C3 amended: a second registration attempt by an already-registered user
never creates a second row in either variant; the student-path variant
always answers 409 Conflict (its duplicate check runs first), while the
admin-path variant answers 409 only when the deadline has not passed and
the event is not full, answering 400 with the earlier guard's message
otherwise. -/
theorem duplicate_registration_conflict :
    (∀ (st : RegState) (uid eid : Nat) (now : Int) (e : Event) (r : EventRegistration),
      st.events.find? (fun ev => ev.id == eid) = some e →
      st.registrations.find? (fun r0 => r0.eventId == eid && r0.userId == uid) = some r →
      StudentEventController.registerForEvent st (some uid) (some eid) now =
        (errResp 409 "You are already registered for this event", st)) ∧
    (∀ (st : RegState) (uid eid : Nat) (now : Int) (e : Event) (r : EventRegistration),
      st.events.find? (fun ev => ev.id == eid) = some e →
      st.registrations.find? (fun r0 => r0.eventId == eid && r0.userId == uid) = some r →
      (EventController.registerForEvent st (some uid) (some eid) now).2 = st ∧
      (deadlinePassed e now = false →
        adminIsFull e (regCount st eid) = false →
        (EventController.registerForEvent st (some uid) (some eid) now).1 =
          errResp 409 "You are already registered for this event")) := by
  constructor
  · intro st uid eid now e r hfind hdup
    simp [StudentEventController.registerForEvent, hfind, hdup]
  · intro st uid eid now e r hfind hdup
    constructor
    · by_cases h1 : deadlinePassed e now <;>
        by_cases h2 : adminIsFull e (regCount st eid) <;>
        simp [EventController.registerForEvent, hfind, hdup, h1, h2]
    · intro h1 h2
      simp [EventController.registerForEvent, hfind, hdup, h1, h2]

/-- State for the C3 witness: user 42 is registered for event 7, which has
no deadline and no capacity bound. -/
def registeredOpenState : RegState :=
  ⟨[{ pastEvent with id := 7 }], [⟨0, 7, 42⟩], 1⟩

/-- C3 witness: the amended theorem applied to a second attempt by the
registered user 42 in the student path. -/
theorem duplicate_registration_conflict_witness :
    StudentEventController.registerForEvent registeredOpenState (some 42) (some 7) 100 =
      (errResp 409 "You are already registered for this event", registeredOpenState) :=
  duplicate_registration_conflict.1 registeredOpenState 42 7 100
    { pastEvent with id := 7 } ⟨0, 7, 42⟩ rfl rfl

/-- An `EventRegistrationField` row: one field of a registration form. -/
structure EventRegistrationField where
  id : Nat
  formId : Nat
  label : String
  fieldType : String
  placeholder : Option String
  required : Bool
  options : List String
  order : Nat
  validation : Option String
deriving DecidableEq, Repr

/-- One entry of the `fields` array in the `createOrUpdateForm` request
body.  `placeholder` is stored through `|| null` (`none` = absent or falsy),
`required` through `|| false`, `options` through `|| []`; `validation` is
stored through `field.validation ? JSON.stringify(field.validation) : null`
and is modelled as the already-serialized string. -/
structure FieldInput where
  label : String
  fieldType : String
  placeholder : Option String
  required : Bool
  options : List String
  validation : Option String
deriving DecidableEq, Repr

/-- An `EventRegistrationForm` row (one-to-one with an event). -/
structure EventRegistrationForm where
  id : Nat
  eventId : Nat
  requiresApproval : Bool
deriving DecidableEq, Repr

/-- An `EventRegistrationSubmission` row. -/
structure EventRegistrationSubmission where
  id : Nat
  formId : Nat
  userId : Nat
  eventId : Nat
  responses : List (Nat × JSVal)
  status : SubmissionStatus
  approvedBy : Option Nat
  approvedAt : Option Int
  rejectionReason : Option String
  attended : Option Bool
  attendanceMarkedAt : Option Int
  attendanceMarkedBy : Option Nat
deriving DecidableEq, Repr

/-- Database state touched by the form/submission controllers, with a
fresh-id counter standing for database-generated ids. -/
structure FormState where
  events : List Event
  forms : List EventRegistrationForm
  fieldRows : List EventRegistrationField
  submissions : List EventRegistrationSubmission
  nextId : Nat
deriving DecidableEq, Repr

/-- `fields.map((field, index) => ({..., order: index}))` with
database-generated ids: builds the field rows of a form, `order` equal to
the position in the input list. -/
def buildFieldRows (formId : Nat) (startId : Nat) (ord : Nat) :
    List FieldInput → List EventRegistrationField
  | [] => []
  | f :: fs =>
    { id := startId
      formId := formId
      label := f.label
      fieldType := f.fieldType
      placeholder := f.placeholder
      required := f.required
      options := f.options
      order := ord
      validation := f.validation } :: buildFieldRows formId (startId + 1) (ord + 1) fs

/-- The field rows attached to form `formId`. -/
def fieldsOf (st : FormState) (formId : Nat) : List EventRegistrationField :=
  st.fieldRows.filter (fun r => r.formId == formId)

/-- `EventFormController.createOrUpdateForm` (notification.controller.ts
lines 1191–1308): missing user (401), event not found (404), empty field
list (400); then, when a form for the event exists, its field rows are
deleted (`deleteMany`) and the form updated with the new rows, otherwise a
fresh form is created with the rows; finally the event's
`requiresRegistration` flag is set. -/
def EventFormController.createOrUpdateForm (st : FormState) (userId? : Option Nat)
    (eventId : Nat) (requiresApproval : Bool) (fields : List FieldInput) :
    ApiResp × FormState :=
  match userId? with
  | none => (errResp 401 "Unauthorized", st)
  | some _userId =>
    match st.events.find? (fun e => e.id == eventId) with
    | none => (errResp 404 "Event not found", st)
    | some _event =>
      if fields = [] then
        (errResp 400 "At least one field is required", st)
      else
        let st1 : FormState :=
          match st.forms.find? (fun f => f.eventId == eventId) with
          | some existingForm =>
            { st with
              forms := st.forms.map (fun g =>
                if g.id == existingForm.id then { g with requiresApproval := requiresApproval } else g)
              fieldRows :=
                st.fieldRows.filter (fun r => !(r.formId == existingForm.id)) ++
                  buildFieldRows existingForm.id st.nextId 0 fields
              nextId := st.nextId + fields.length }
          | none =>
            { st with
              forms := st.forms ++ [⟨st.nextId, eventId, requiresApproval⟩]
              fieldRows := st.fieldRows ++ buildFieldRows st.nextId (st.nextId + 1) 0 fields
              nextId := st.nextId + 1 + fields.length }
        (okResp 201 "Registration form created successfully",
          { st1 with
            events := st1.events.map (fun e =>
              if e.id == eventId then { e with requiresRegistration := true } else e) })

/-- Truthiness of `responses[field.id]`: an absent key is `undefined`
(falsy), a present value uses JavaScript truthiness. -/
def respTruthy (responses : List (Nat × JSVal)) (fid : Nat) : Bool :=
  match responses.lookup fid with
  | some v => v.truthy
  | none => false

/-- `EventFormController.submitForm` (notification.controller.ts lines
1349–1472): missing user (401), form not found (404), deadline passed
(400), duplicate (formId, userId) submission (409), first required field
with a falsy response aborts with "label is required" (400); otherwise the
submission is created — PENDING with no `approvedAt` when the form requires
approval, APPROVED with `approvedAt = now` when it does not.  A form whose
event row is missing (impossible under the foreign key) falls into the
controller's catch-all 500. -/
def EventFormController.submitForm (st : FormState) (userId? : Option Nat)
    (formId : Nat) (responses : List (Nat × JSVal)) (now : Int) :
    ApiResp × FormState :=
  match userId? with
  | none => (errResp 401 "Unauthorized", st)
  | some userId =>
    match st.forms.find? (fun f => f.id == formId) with
    | none => (errResp 404 "Registration form not found", st)
    | some form =>
      match st.events.find? (fun e => e.id == form.eventId) with
      | none => (errResp 500 "An error occurred while submitting registration", st)
      | some event =>
        if deadlinePassed event now then
          (errResp 400 "Registration deadline has passed", st)
        else
          match st.submissions.find? (fun s => s.formId == formId && s.userId == userId) with
          | some _ => (errResp 409 "You have already submitted a registration for this event", st)
          | none =>
            match (fieldsOf st form.id).find?
                (fun f => f.required && !(respTruthy responses f.id)) with
            | some missing => (errResp 400 (missing.label ++ " is required"), st)
            | none =>
              let sub : EventRegistrationSubmission := {
                id := st.nextId
                formId := formId
                userId := userId
                eventId := form.eventId
                responses := responses
                status := if form.requiresApproval then .PENDING else .APPROVED
                approvedBy := none
                approvedAt := if form.requiresApproval then none else some now
                rejectionReason := none
                attended := none
                attendanceMarkedAt := none
                attendanceMarkedBy := none }
              (okResp 201
                (if form.requiresApproval then
                  "Registration submitted successfully. Awaiting approval."
                else "Registration successful!"),
                { st with
                  submissions := st.submissions ++ [sub]
                  nextId := st.nextId + 1 })

/-- Lowercasing used by the status message `status.toLowerCase()`. -/
def lowerStr (s : String) : String :=
  String.mk (s.toList.map Char.toLower)

/-- `EventFormController.updateSubmissionStatus` (notification.controller.ts
lines 1546–1624): missing user (401), a status outside
APPROVED/REJECTED/WAITLISTED (400), submission not found (404); the update
sets the new status, sets approver id and timestamp on APPROVED and clears
them otherwise, and sets the rejection reason on REJECTED (an absent reason
leaves the stored one untouched, Prisma skipping `undefined`) and clears it
otherwise.  The `attended` column is not touched. -/
def EventFormController.updateSubmissionStatus (st : FormState) (userId? : Option Nat)
    (id : Nat) (statusStr : String) (rejectionReason : Option String) (now : Int) :
    ApiResp × FormState :=
  match userId? with
  | none => (errResp 401 "Unauthorized", st)
  | some userId =>
    if ¬(statusStr = "APPROVED" ∨ statusStr = "REJECTED" ∨ statusStr = "WAITLISTED") then
      (errResp 400 "Invalid status", st)
    else
      match st.submissions.find? (fun s => s.id == id) with
      | none => (errResp 404 "Submission not found", st)
      | some _submission =>
        let newStatus : SubmissionStatus :=
          if statusStr = "APPROVED" then .APPROVED
          else if statusStr = "REJECTED" then .REJECTED
          else .WAITLISTED
        (okResp 200 ("Registration " ++ lowerStr statusStr ++ " successfully"),
          { st with
            submissions := st.submissions.map (fun s =>
              if s.id == id then
                { s with
                  status := newStatus
                  approvedBy := if statusStr = "APPROVED" then some userId else none
                  approvedAt := if statusStr = "APPROVED" then some now else none
                  rejectionReason :=
                    if statusStr = "REJECTED" then
                      match rejectionReason with
                      | some r => some r
                      | none => s.rejectionReason
                    else none }
              else s) })

/-- `EventFormController.bulkApproveSubmissions` (notification.controller.ts
lines 1627–1680): missing user (401), empty id list (400); the `updateMany`
sets status, approver and timestamp on exactly the listed submissions whose
status is PENDING, leaving all others untouched. -/
def EventFormController.bulkApproveSubmissions (st : FormState) (userId? : Option Nat)
    (submissionIds : List Nat) (now : Int) : ApiResp × FormState :=
  match userId? with
  | none => (errResp 401 "Unauthorized", st)
  | some userId =>
    if submissionIds = [] then
      (errResp 400 "Submission IDs array is required", st)
    else
      (okResp 200 (toString submissionIds.length ++ " registrations approved successfully"),
        { st with
          submissions := st.submissions.map (fun s =>
            if submissionIds.contains s.id && s.status == .PENDING then
              { s with
                status := .APPROVED
                approvedBy := some userId
                approvedAt := some now }
            else s) })

/-- `EventFormController.markAttendance` (notification.controller.ts lines
1683–1762): missing user (401), submission not found (404), status other
than APPROVED (400, precondition failed); otherwise `attended` is set to
the given boolean together with who marked it and when. -/
def EventFormController.markAttendance (st : FormState) (userId? : Option Nat)
    (id : Nat) (attended : Bool) (now : Int) : ApiResp × FormState :=
  match userId? with
  | none => (errResp 401 "Unauthorized", st)
  | some userId =>
    match st.submissions.find? (fun s => s.id == id) with
    | none => (errResp 404 "Registration not found", st)
    | some submission =>
      if submission.status ≠ .APPROVED then
        (errResp 400 "Only approved registrations can have attendance marked", st)
      else
        (okResp 200 "Attendance marked successfully",
          { st with
            submissions := st.submissions.map (fun s =>
              if s.id == id then
                { s with
                  attended := some attended
                  attendanceMarkedAt := some now
                  attendanceMarkedBy := some userId }
              else s) })

/-- The statistics object returned by `getAttendanceStats`.  The rate is
kept as an exact rational; the source's `.toFixed(2)` decimal formatting of
the response string is presentation only and not modelled. -/
structure AttendanceStats where
  totalSubmissions : Nat
  approved : Nat
  attended : Nat
  absent : Nat
  attendanceRate : ℚ
deriving DecidableEq, Repr

/-- `EventFormController.getAttendanceStats` (notification.controller.ts
lines 1765–1810): four counts over the submissions of the event and the
rate `approved > 0 ? attended / approved * 100 : 0`. -/
def EventFormController.getAttendanceStats (st : FormState) (eventId : Nat) :
    AttendanceStats :=
  let totalSubmissions := st.submissions.countP (fun s => s.eventId == eventId)
  let approved := st.submissions.countP
    (fun s => s.eventId == eventId && s.status == .APPROVED)
  let attended := st.submissions.countP
    (fun s => s.eventId == eventId && s.status == .APPROVED && s.attended == some true)
  let absent := st.submissions.countP
    (fun s => s.eventId == eventId && s.status == .APPROVED && s.attended == some false)
  { totalSubmissions := totalSubmissions
    approved := approved
    attended := attended
    absent := absent
    attendanceRate :=
      if 0 < approved then (attended : ℚ) / (approved : ℚ) * 100 else 0 }

/-- Attendance statistics as the spec words them: totalSubmissions counts
the submissions for the event, approved those with status APPROVED,
attended those with status APPROVED and attended=true, absent those with
status APPROVED and attended=false, and the rate is attended/approved as a
percentage, 0 when approved = 0.  This definition follows the spec's words,
to be compared with the controller's computation. -/
def specAttendanceStats (subs : List EventRegistrationSubmission) (eventId : Nat) :
    AttendanceStats :=
  let eventSubs := subs.filter (fun s => decide (s.eventId = eventId))
  let approvedSubs := subs.filter (fun s => decide (s.eventId = eventId ∧ s.status = .APPROVED))
  let attendedSubs := subs.filter
    (fun s => decide (s.eventId = eventId ∧ s.status = .APPROVED ∧ s.attended = some true))
  let absentSubs := subs.filter
    (fun s => decide (s.eventId = eventId ∧ s.status = .APPROVED ∧ s.attended = some false))
  { totalSubmissions := eventSubs.length
    approved := approvedSubs.length
    attended := attendedSubs.length
    absent := absentSubs.length
    attendanceRate :=
      if approvedSubs.length = 0 then 0
      else (attendedSubs.length : ℚ) / (approvedSubs.length : ℚ) * 100 }

/-- The invariant claimed for submissions: `attended` is set only on
APPROVED submissions. -/
def attendedOnlyWhenApproved (subs : List EventRegistrationSubmission) : Prop :=
  ∀ s ∈ subs, s.attended ≠ none → s.status = .APPROVED

instance (subs : List EventRegistrationSubmission) :
    Decidable (attendedOnlyWhenApproved subs) := by
  unfold attendedOnlyWhenApproved
  infer_instance

/-- A deadline-free event for the form scenarios. -/
def formEvent : Event := { pastEvent with id := 20 }

/-- A form on `formEvent` that does not require approval. -/
def autoForm : EventRegistrationForm := ⟨30, 20, false⟩

/-- State holding `formEvent` and `autoForm` with no fields and no
submissions. -/
def autoFormState : FormState := ⟨[formEvent], [autoForm], [], [], 40⟩

/-- C4: a `submitForm` call that passes every guard (form found, deadline
not passed, no duplicate, no missing required field) appends exactly one
submission; it is PENDING with `approvedAt = null` when the form requires
approval and APPROVED with `approvedAt` equal to the submission time when
it does not. -/
theorem submitForm_approval_semantics (st : FormState) (uid formId : Nat)
    (responses : List (Nat × JSVal)) (now : Int)
    (form : EventRegistrationForm) (event : Event)
    (hform : st.forms.find? (fun f => f.id == formId) = some form)
    (hev : st.events.find? (fun e => e.id == form.eventId) = some event)
    (hdl : deadlinePassed event now = false)
    (hdup : st.submissions.find? (fun s => s.formId == formId && s.userId == uid) = none)
    (hreq : (fieldsOf st form.id).find?
      (fun f => f.required && !(respTruthy responses f.id)) = none) :
    ∃ sub : EventRegistrationSubmission,
      (EventFormController.submitForm st (some uid) formId responses now).2.submissions =
        st.submissions ++ [sub] ∧
      (EventFormController.submitForm st (some uid) formId responses now).1.status = 201 ∧
      sub.status = (if form.requiresApproval then .PENDING else .APPROVED) ∧
      sub.approvedAt = (if form.requiresApproval then none else some now) := by
  simp only [EventFormController.submitForm, hform, hev, hdl, hdup, hreq, Bool.false_eq_true,
    if_false]
  exact ⟨_, rfl, rfl, rfl, rfl⟩

/-- C4 witness: submitting the empty response set to the no-approval form
of `autoFormState` at time 100. -/
theorem submitForm_approval_semantics_witness :
    ∃ sub : EventRegistrationSubmission,
      (EventFormController.submitForm autoFormState (some 7) 30 [] 100).2.submissions =
        autoFormState.submissions ++ [sub] ∧
      (EventFormController.submitForm autoFormState (some 7) 30 [] 100).1.status = 201 ∧
      sub.status = (if autoForm.requiresApproval then .PENDING else .APPROVED) ∧
      sub.approvedAt = (if autoForm.requiresApproval then none else some 100) :=
  submitForm_approval_semantics autoFormState 7 30 [] 100 autoForm formEvent
    rfl rfl rfl rfl rfl

/-- C8: `markAttendance` on an existing submission that is not APPROVED
answers 400 with the precondition message and leaves the state unchanged;
on an APPROVED submission it answers 200 and records the attendance flag,
who marked it and when. -/
theorem markAttendance_requires_approved (st : FormState) (uid id : Nat)
    (att : Bool) (now : Int) (s : EventRegistrationSubmission)
    (hfind : st.submissions.find? (fun t => t.id == id) = some s) :
    (s.status ≠ .APPROVED →
      EventFormController.markAttendance st (some uid) id att now =
        (errResp 400 "Only approved registrations can have attendance marked", st)) ∧
    (s.status = .APPROVED →
      (EventFormController.markAttendance st (some uid) id att now).1 =
        okResp 200 "Attendance marked successfully" ∧
      (EventFormController.markAttendance st (some uid) id att now).2.submissions =
        st.submissions.map (fun t =>
          if t.id == id then
            { t with attended := some att, attendanceMarkedAt := some now,
                     attendanceMarkedBy := some uid }
          else t)) := by
  constructor
  · intro h
    simp [EventFormController.markAttendance, hfind, h]
  · intro h
    constructor <;> simp [EventFormController.markAttendance, hfind, h]

/-- A PENDING submission sitting in a state, for concrete evaluations. -/
def pendingSub : EventRegistrationSubmission :=
  { id := 50, formId := 30, userId := 7, eventId := 20, responses := [],
    status := .PENDING, approvedBy := none, approvedAt := none,
    rejectionReason := none, attended := none,
    attendanceMarkedAt := none, attendanceMarkedBy := none }

/-- State holding the PENDING submission. -/
def pendingSubState : FormState := ⟨[formEvent], [autoForm], [], [pendingSub], 60⟩

/-- C8 witness: marking attendance on the PENDING submission fails with the
precondition error and an unchanged state. -/
theorem markAttendance_requires_approved_witness :
    EventFormController.markAttendance pendingSubState (some 1) 50 true 100 =
      (errResp 400 "Only approved registrations can have attendance marked",
        pendingSubState) :=
  (markAttendance_requires_approved pendingSubState 1 50 true 100 pendingSub rfl).1
    (by decide)

/-- C9: the controller's attendance statistics coincide with the spec's
description — submissions counted per event, approved per status, attended
and absent among the approved ones by flag, and the rate attended/approved
as a percentage with 0 when nothing is approved. -/
theorem getAttendanceStats_matches_spec (st : FormState) (eventId : Nat) :
    EventFormController.getAttendanceStats st eventId =
      specAttendanceStats st.submissions eventId := by
  have htot : st.submissions.countP (fun s => s.eventId == eventId) =
      (st.submissions.filter (fun s => decide (s.eventId = eventId))).length := by
    rw [List.countP_eq_length_filter]
    congr 1
  have hap : st.submissions.countP
        (fun s => s.eventId == eventId && s.status == .APPROVED) =
      (st.submissions.filter
        (fun s => decide (s.eventId = eventId ∧ s.status = .APPROVED))).length := by
    rw [List.countP_eq_length_filter]
    congr 1
    refine List.filter_congr (fun s _ => ?_)
    rw [Bool.eq_iff_iff]
    simp
  have hat : st.submissions.countP
        (fun s => s.eventId == eventId && s.status == .APPROVED && s.attended == some true) =
      (st.submissions.filter
        (fun s => decide (s.eventId = eventId ∧ s.status = .APPROVED ∧
          s.attended = some true))).length := by
    rw [List.countP_eq_length_filter]
    congr 1
    refine List.filter_congr (fun s _ => ?_)
    rw [Bool.eq_iff_iff]
    simp
    tauto
  have hab : st.submissions.countP
        (fun s => s.eventId == eventId && s.status == .APPROVED && s.attended == some false) =
      (st.submissions.filter
        (fun s => decide (s.eventId = eventId ∧ s.status = .APPROVED ∧
          s.attended = some false))).length := by
    rw [List.countP_eq_length_filter]
    congr 1
    refine List.filter_congr (fun s _ => ?_)
    rw [Bool.eq_iff_iff]
    simp
    tauto
  simp only [EventFormController.getAttendanceStats, specAttendanceStats]
  rw [htot, hap, hat, hab]
  congr 1
  rcases Nat.eq_zero_or_pos ((st.submissions.filter
      (fun s => decide (s.eventId = eventId ∧ s.status = SubmissionStatus.APPROVED))).length)
    with hB | hB
  · rw [hB]
    rfl
  · rw [if_pos hB, if_neg (Nat.pos_iff_ne_zero.mp hB)]

/-- Helper: `submitForm` either leaves the submissions table unchanged
(any guard fired) or appends exactly one submission, created with
`attended = null`. -/
theorem submitForm_submissions_shape (st : FormState) (uid formId : Nat)
    (responses : List (Nat × JSVal)) (now : Int) :
    (EventFormController.submitForm st (some uid) formId responses now).2.submissions =
      st.submissions ∨
    ∃ sub : EventRegistrationSubmission,
      (EventFormController.submitForm st (some uid) formId responses now).2.submissions =
        st.submissions ++ [sub] ∧ sub.attended = none := by
  simp only [EventFormController.submitForm]
  split
  · left
    rfl
  · split
    · left
      rfl
    · split
      · left
        rfl
      · split
        · left
          rfl
        · split
          · left
            rfl
          · right
            exact ⟨_, rfl, rfl⟩

/-- C6 counterexample: starting from a state satisfying the invariant (no
submissions), the operation sequence submitForm (auto-approve form, so the
submission is APPROVED), markAttendance (sets attended = true), then
updateSubmissionStatus to REJECTED reaches a state holding a submission
with `attended = true` and status REJECTED — `updateSubmissionStatus` never
clears `attended`, so the claimed invariant fails on a reachable state. -/
theorem attended_invariant_cex :
    attendedOnlyWhenApproved autoFormState.submissions ∧
    ¬ attendedOnlyWhenApproved
      (EventFormController.updateSubmissionStatus
        (EventFormController.markAttendance
          (EventFormController.submitForm autoFormState (some 7) 30 [] 100).2
          (some 1) 40 true 100).2
        (some 1) 40 "REJECTED" (some "no show") 100).2.submissions := by
  constructor
  · decide
  · decide

/-- C6 amended: `submitForm`, `bulkApproveSubmissions` and `markAttendance`
preserve the invariant that a submission with `attended` set is APPROVED
(markAttendance under the database's primary-key uniqueness of submission
ids), and `updateSubmissionStatus` never modifies the `attended` column —
in particular it can move an APPROVED submission with `attended` set to
REJECTED or WAITLISTED without clearing the flag, so the invariant does not
hold in every reachable state. -/
theorem submission_ops_attended_invariant :
    (∀ (st : FormState) (uid formId : Nat) (responses : List (Nat × JSVal)) (now : Int),
      attendedOnlyWhenApproved st.submissions →
      attendedOnlyWhenApproved
        (EventFormController.submitForm st (some uid) formId responses now).2.submissions) ∧
    (∀ (st : FormState) (uid : Nat) (ids : List Nat) (now : Int),
      attendedOnlyWhenApproved st.submissions →
      attendedOnlyWhenApproved
        (EventFormController.bulkApproveSubmissions st (some uid) ids now).2.submissions) ∧
    (∀ (st : FormState) (uid id : Nat) (att : Bool) (now : Int),
      (st.submissions.map (fun s => s.id)).Nodup →
      attendedOnlyWhenApproved st.submissions →
      attendedOnlyWhenApproved
        (EventFormController.markAttendance st (some uid) id att now).2.submissions) ∧
    (∀ (st : FormState) (uid id : Nat) (statusStr : String)
        (rejectionReason : Option String) (now : Int),
      (EventFormController.updateSubmissionStatus st (some uid) id statusStr
        rejectionReason now).2.submissions.map (fun s => s.attended) =
        st.submissions.map (fun s => s.attended)) := by
  refine ⟨?_, ?_, ?_, ?_⟩
  · intro st uid formId responses now h
    rcases submitForm_submissions_shape st uid formId responses now with heq | ⟨sub, heq, hatt⟩
    · rw [heq]
      exact h
    · rw [heq]
      intro s hs hns
      rcases List.mem_append.1 hs with h1 | h2
      · exact h s h1 hns
      · rw [List.mem_singleton.1 h2] at hns
        exact absurd hatt hns
  · intro st uid ids now h
    simp only [EventFormController.bulkApproveSubmissions]
    split
    · exact h
    · intro s hs hns
      rcases List.mem_map.1 hs with ⟨t, ht, rfl⟩
      by_cases hc : (ids.contains t.id && t.status == SubmissionStatus.PENDING) = true
      · rw [if_pos hc] at hns ⊢
      · rw [if_neg hc] at hns ⊢
        exact h t ht hns
  · intro st uid id att now hnd h
    simp only [EventFormController.markAttendance]
    split
    · exact h
    · rename_i s0 hfind
      split
      · exact h
      · rename_i happr
        rw [not_not] at happr
        intro s hs hns
        rcases List.mem_map.1 hs with ⟨t, ht, rfl⟩
        have ht0 : s0 ∈ st.submissions := List.mem_of_find?_eq_some hfind
        have hs0 := List.find?_some hfind
        simp only [beq_iff_eq] at hs0
        by_cases hc : t.id = id
        · have hts : t = s0 := List.inj_on_of_nodup_map hnd ht ht0 (by rw [hc, hs0])
          simp only [hc, beq_self_eq_true, if_true, if_pos]
          rw [hts]
          exact happr
        · simp only [beq_iff_eq, hc, if_false, if_neg] at hns ⊢
          exact h t ht hns
  · intro st uid id statusStr rejectionReason now
    simp only [EventFormController.updateSubmissionStatus]
    split
    · rfl
    · split
      · rfl
      · rw [List.map_map]
        refine List.map_congr_left (fun s _ => ?_)
        by_cases hc : s.id = id
        · simp [hc]
        · simp [hc]

/-- An APPROVED submission with attendance not yet marked. -/
def approvedSub : EventRegistrationSubmission :=
  { pendingSub with
    id := 51
    status := .APPROVED
    approvedBy := some 1
    approvedAt := some 90 }

/-- State holding only the APPROVED submission. -/
def approvedSubState : FormState := ⟨[formEvent], [autoForm], [], [approvedSub], 60⟩

/-- C6 witness: marking attendance on the APPROVED submission preserves the
invariant, by the amended theorem. -/
theorem submission_ops_attended_invariant_witness :
    attendedOnlyWhenApproved
      (EventFormController.markAttendance approvedSubState (some 1) 51 true 100).2.submissions :=
  submission_ops_attended_invariant.2.2.1 approvedSubState 1 51 true 100
    (by decide) (by decide)

/-- C10: past the deadline and duplicate guards, a `submitForm` call is
rejected with 400 exactly when some required field of the form has an
absent or falsy response (JavaScript truthiness: `""`, `0`, `false`, `null`
and missing keys all count as missing); the rejection carries the first
such field's label in "label is required" and stores nothing. -/
theorem submitForm_required_falsy (st : FormState) (uid formId : Nat)
    (responses : List (Nat × JSVal)) (now : Int)
    (form : EventRegistrationForm) (event : Event)
    (hform : st.forms.find? (fun f => f.id == formId) = some form)
    (hev : st.events.find? (fun e => e.id == form.eventId) = some event)
    (hdl : deadlinePassed event now = false)
    (hdup : st.submissions.find? (fun s => s.formId == formId && s.userId == uid) = none) :
    ((∃ fl ∈ fieldsOf st form.id, fl.required = true ∧ respTruthy responses fl.id = false) ↔
      (EventFormController.submitForm st (some uid) formId responses now).1.status = 400) ∧
    (∀ fl : EventRegistrationField,
      (fieldsOf st form.id).find?
        (fun f => f.required && !(respTruthy responses f.id)) = some fl →
      EventFormController.submitForm st (some uid) formId responses now =
        (errResp 400 (fl.label ++ " is required"), st)) := by
  cases hfd : (fieldsOf st form.id).find?
      (fun f => f.required && !(respTruthy responses f.id)) with
  | none =>
    refine ⟨⟨?_, ?_⟩, ?_⟩
    · rintro ⟨fl, hmem, hreq, hfal⟩
      exfalso
      have hnp := List.find?_eq_none.1 hfd fl hmem
      apply hnp
      simp [hreq, hfal]
    · intro hst
      exfalso
      simp [EventFormController.submitForm, hform, hev, hdl, hdup, hfd, okResp] at hst
    · intro fl hfl
      exact Option.noConfusion hfl
  | some fl0 =>
    have hp := List.find?_some hfd
    simp only [Bool.and_eq_true, Bool.not_eq_true'] at hp
    refine ⟨⟨?_, ?_⟩, ?_⟩
    · intro _
      simp [EventFormController.submitForm, hform, hev, hdl, hdup, hfd, errResp]
    · intro _
      exact ⟨fl0, List.mem_of_find?_eq_some hfd, hp.1, hp.2⟩
    · intro fl hfl
      injection hfl with hfl0
      subst hfl0
      simp [EventFormController.submitForm, hform, hev, hdl, hdup, hfd]

/-- A required text field attached to `autoForm`. -/
def reqField : EventRegistrationField :=
  { id := 33
    formId := 30
    label := "Phone"
    fieldType := "text"
    placeholder := none
    required := true
    options := []
    order := 0
    validation := none }

/-- `autoFormState` with the required field attached. -/
def reqFormState : FormState := ⟨[formEvent], [autoForm], [reqField], [], 60⟩

/-- C10 witness: answering the required field with the number 0 (falsy but
present) is rejected with "Phone is required" and nothing is stored. -/
theorem submitForm_required_falsy_witness :
    EventFormController.submitForm reqFormState (some 7) 30 [(33, JSVal.vInt 0)] 100 =
      (errResp 400 "Phone is required", reqFormState) :=
  (submitForm_required_falsy reqFormState 7 30 [(33, JSVal.vInt 0)] 100 autoForm formEvent
    rfl rfl rfl rfl).2 reqField rfl

/-- The labels of the built field rows are the labels of the input list,
in order. -/
theorem buildFieldRows_map_label (fid : Nat) :
    ∀ (l : List FieldInput) (sid ord : Nat),
      (buildFieldRows fid sid ord l).map (fun r => r.label) = l.map (fun f => f.label)
  | [], _, _ => rfl
  | f :: fs, sid, ord => by
    simp only [buildFieldRows, List.map_cons, List.cons.injEq]
    exact ⟨trivial, buildFieldRows_map_label fid fs (sid + 1) (ord + 1)⟩

/-- The orders of the built field rows count up from the starting order. -/
theorem buildFieldRows_map_order (fid : Nat) :
    ∀ (l : List FieldInput) (sid ord : Nat),
      (buildFieldRows fid sid ord l).map (fun r => r.order) =
        (List.range l.length).map (fun i => i + ord)
  | [], _, _ => rfl
  | f :: fs, sid, ord => by
    rw [buildFieldRows, List.map_cons, List.length_cons, List.range_succ_eq_map,
      List.map_cons, List.map_map]
    congr 1
    · exact (Nat.zero_add ord).symm
    · rw [buildFieldRows_map_order fid fs (sid + 1) (ord + 1)]
      refine List.map_congr_left (fun i _ => ?_)
      simp only [Function.comp_apply]
      omega

/-- Every built field row belongs to the given form. -/
theorem buildFieldRows_formId (fid : Nat) :
    ∀ (l : List FieldInput) (sid ord : Nat),
      ∀ r ∈ buildFieldRows fid sid ord l, r.formId = fid
  | [], _, _ => by intro r hr; cases hr
  | f :: fs, sid, ord => by
    intro r hr
    rcases List.mem_cons.1 hr with h | h
    · rw [h]
    · exact buildFieldRows_formId fid fs (sid + 1) (ord + 1) r h

/-- `find?` commutes with a map that does not change the predicate's
verdict. -/
theorem find?_map_pred {α : Type} (g : α → α) (p : α → Bool)
    (hp : ∀ a, p (g a) = p a) :
    ∀ l : List α, (l.map g).find? p = (l.find? p).map g
  | [] => rfl
  | a :: t => by
    by_cases hpa : p a = true
    · rw [List.map_cons, List.find?_cons_of_pos _ (by rw [hp]; exact hpa),
        List.find?_cons_of_pos _ hpa]
      rfl
    · rw [List.map_cons,
        List.find?_cons_of_neg _ (by rw [hp]; simpa using hpa),
        List.find?_cons_of_neg _ (by simpa using hpa)]
      exact find?_map_pred g p hp t

/-- `find?` skips a prefix on which it fails. -/
theorem find?_append_of_none {α : Type} (p : α → Bool) :
    ∀ (l1 l2 : List α), l1.find? p = none → (l1 ++ l2).find? p = l2.find? p
  | [], _, _ => by simp
  | a :: t, l2, h => by
    by_cases hpa : p a = true
    · rw [List.find?_cons_of_pos _ hpa] at h
      cases h
    · rw [List.find?_cons_of_neg _ (by simpa using hpa)] at h
      rw [List.cons_append, List.find?_cons_of_neg _ (by simpa using hpa)]
      exact find?_append_of_none p t l2 h

/-- Filtering for `p` after removing every `p`-element and appending rows
that all satisfy `p` yields exactly the appended rows. -/
theorem filter_replace {α : Type} (p : α → Bool) (xs ys : List α)
    (hys : ∀ y ∈ ys, p y = true) :
    ((xs.filter (fun a => !(p a))) ++ ys).filter p = ys := by
  rw [List.filter_append]
  have h1 : (xs.filter (fun a => !(p a))).filter p = [] := by
    rw [List.filter_eq_nil_iff]
    intro a ha
    have := (List.mem_filter.1 ha).2
    simp only [Bool.not_eq_true'] at this
    simp [this]
  rw [h1, List.filter_eq_self.2 hys, List.nil_append]

/-- A `createOrUpdateForm` call on an existing event with a non-empty field
list leaves a form for the event findable and the event row findable. -/
theorem createOrUpdateForm_post (st : FormState) (uid eventId : Nat) (ra : Bool)
    (l : List FieldInput)
    (hev : (st.events.find? (fun e => e.id == eventId)).isSome = true)
    (hl : ¬(l = [])) :
    ((EventFormController.createOrUpdateForm st (some uid) eventId ra l).2.forms.find?
      (fun g => g.eventId == eventId)).isSome = true ∧
    ((EventFormController.createOrUpdateForm st (some uid) eventId ra l).2.events.find?
      (fun e => e.id == eventId)).isSome = true := by
  obtain ⟨e0, he0⟩ := Option.isSome_iff_exists.mp hev
  have hrwv := find?_map_pred
    (fun e : Event => if e.id == eventId then { e with requiresRegistration := true } else e)
    (fun e => e.id == eventId)
    (by intro e; by_cases h : e.id = eventId <;> simp [h]) st.events
  constructor
  · simp only [EventFormController.createOrUpdateForm, he0, if_neg hl]
    cases hf : st.forms.find? (fun f => f.eventId == eventId) with
    | some f0 =>
      have hrw := find?_map_pred
        (fun g : EventRegistrationForm =>
          if g.id == f0.id then { g with requiresApproval := ra } else g)
        (fun g => g.eventId == eventId)
        (by intro g; by_cases h : g.id = f0.id <;> simp [h]) st.forms
      rw [hrw, hf]
      rfl
    | none =>
      rw [find?_append_of_none _ _ _ hf]
      simp
  · simp only [EventFormController.createOrUpdateForm, he0, if_neg hl]
    cases hf : st.forms.find? (fun f => f.eventId == eventId) with
    | some f0 =>
      rw [hrwv, he0]
      rfl
    | none =>
      rw [hrwv, he0]
      rfl

/-- When a form for the event already exists, `createOrUpdateForm` replaces
its field rows by exactly the rows built from the input list. -/
theorem createOrUpdateForm_update_branch (st : FormState) (uid eventId : Nat)
    (ra : Bool) (l : List FieldInput) (f0 : EventRegistrationForm)
    (hev : (st.events.find? (fun e => e.id == eventId)).isSome = true)
    (hl : ¬(l = []))
    (hf : st.forms.find? (fun f => f.eventId == eventId) = some f0) :
    ∃ f : EventRegistrationForm,
      (EventFormController.createOrUpdateForm st (some uid) eventId ra l).2.forms.find?
        (fun g => g.eventId == eventId) = some f ∧
      f.id = f0.id ∧
      fieldsOf (EventFormController.createOrUpdateForm st (some uid) eventId ra l).2 f.id =
        buildFieldRows f0.id st.nextId 0 l := by
  obtain ⟨e0, he0⟩ := Option.isSome_iff_exists.mp hev
  have hrw := find?_map_pred
    (fun g : EventRegistrationForm =>
      if g.id == f0.id then { g with requiresApproval := ra } else g)
    (fun g => g.eventId == eventId)
    (by intro g; by_cases h : g.id = f0.id <;> simp [h]) st.forms
  refine ⟨{ f0 with requiresApproval := ra }, ?_, rfl, ?_⟩
  · simp only [EventFormController.createOrUpdateForm, he0, if_neg hl, hf]
    rw [hrw, hf]
    simp
  · simp only [EventFormController.createOrUpdateForm, he0, if_neg hl, hf, fieldsOf]
    refine filter_replace _ _ _ ?_
    intro y hy
    have := buildFieldRows_formId f0.id l st.nextId 0 y hy
    simp [this]

/-- C7: after two successive `createOrUpdateForm` calls on the same
existing event with non-empty field lists, the fields attached to the
event's form are exactly those of the second list — labels in input order
and each field's `order` equal to its 0-based position in the second list;
nothing of the first list survives. -/
theorem createOrUpdateForm_replaces_fields (st : FormState) (uid eventId : Nat)
    (ra1 ra2 : Bool) (l1 l2 : List FieldInput)
    (hev : (st.events.find? (fun e => e.id == eventId)).isSome = true)
    (h1 : ¬(l1 = [])) (h2 : ¬(l2 = [])) :
    ∃ f : EventRegistrationForm,
      (EventFormController.createOrUpdateForm
        (EventFormController.createOrUpdateForm st (some uid) eventId ra1 l1).2
        (some uid) eventId ra2 l2).2.forms.find? (fun g => g.eventId == eventId) = some f ∧
      (fieldsOf (EventFormController.createOrUpdateForm
        (EventFormController.createOrUpdateForm st (some uid) eventId ra1 l1).2
        (some uid) eventId ra2 l2).2 f.id).map (fun r => r.label) =
        l2.map (fun x => x.label) ∧
      (fieldsOf (EventFormController.createOrUpdateForm
        (EventFormController.createOrUpdateForm st (some uid) eventId ra1 l1).2
        (some uid) eventId ra2 l2).2 f.id).map (fun r => r.order) =
        List.range l2.length := by
  obtain ⟨hf1, hev1⟩ := createOrUpdateForm_post st uid eventId ra1 l1 hev h1
  obtain ⟨f1, hf1some⟩ := Option.isSome_iff_exists.mp hf1
  obtain ⟨f2, hf2some, hid, hfields⟩ :=
    createOrUpdateForm_update_branch
      (EventFormController.createOrUpdateForm st (some uid) eventId ra1 l1).2
      uid eventId ra2 l2 f1 hev1 h2 hf1some
  refine ⟨f2, hf2some, ?_, ?_⟩
  · rw [hfields, buildFieldRows_map_label]
  · rw [hfields, buildFieldRows_map_order]
    simp

/-- C7 witness: replacing a one-field form by a two-field form on
`autoFormState` leaves exactly the two new labels with orders 0 and 1. -/
theorem createOrUpdateForm_replaces_fields_witness :
    ∃ f : EventRegistrationForm,
      (EventFormController.createOrUpdateForm
        (EventFormController.createOrUpdateForm autoFormState (some 1) 20 false
          [⟨"Name", "text", none, true, [], none⟩]).2
        (some 1) 20 true
        [⟨"Email", "text", none, true, [], none⟩,
         ⟨"Team", "select", none, false, ["red", "blue"], none⟩]).2.forms.find?
          (fun g => g.eventId == 20) = some f ∧
      (fieldsOf (EventFormController.createOrUpdateForm
        (EventFormController.createOrUpdateForm autoFormState (some 1) 20 false
          [⟨"Name", "text", none, true, [], none⟩]).2
        (some 1) 20 true
        [⟨"Email", "text", none, true, [], none⟩,
         ⟨"Team", "select", none, false, ["red", "blue"], none⟩]).2 f.id).map
        (fun r => r.label) =
        ([⟨"Email", "text", none, true, [], none⟩,
          ⟨"Team", "select", none, false, ["red", "blue"], none⟩] :
          List FieldInput).map (fun x => x.label) ∧
      (fieldsOf (EventFormController.createOrUpdateForm
        (EventFormController.createOrUpdateForm autoFormState (some 1) 20 false
          [⟨"Name", "text", none, true, [], none⟩]).2
        (some 1) 20 true
        [⟨"Email", "text", none, true, [], none⟩,
         ⟨"Team", "select", none, false, ["red", "blue"], none⟩]).2 f.id).map
        (fun r => r.order) = List.range 2 :=
  createOrUpdateForm_replaces_fields autoFormState 1 20 false true
    [⟨"Name", "text", none, true, [], none⟩]
    [⟨"Email", "text", none, true, [], none⟩,
     ⟨"Team", "select", none, false, ["red", "blue"], none⟩]
    rfl (by decide) (by decide)

end BITSA
